import Mathlib

/-!
# Verification of the conduit-client streaming session core

A shallow embedding, in Lean 4, of the `ConduitClient` class of the
conduit-client repository (the nested-`conduit` negotiation lineage, which the
repository's spec adopts as canonical).  Pure fragments of the TypeScript
source become Lean functions; the mutable instance fields of the class become
an explicit `ClientState` record threaded through the handlers; callback
invocations become an explicit trace of `CallbackEvent`s; `fetch`, `atob`,
`JSON.parse` and `EventSource` are external collaborators and enter the model
only through their observable outcomes (a negotiation result, a parse outcome
carried on the delivered event, a connection handle).

The theorems at the end of the file settle the frozen claims C1..C10 about
the message pipeline (dedup, ordering, phases), the connection lifecycle
(connect / disconnect / open signals) and negotiation validation.
-/

namespace Conduit

/-- Cap on the duplicate-suppression set, `MAX_SEEN_TRACKING` in the source. -/
def MAX_SEEN_TRACKING : Nat := 2048

/-- The four lifecycle phases of a data-stream message (`StreamPhase`). -/
inductive StreamPhase where
  | PHASE_START
  | PHASE_DELTA
  | PHASE_END
  | PHASE_ERROR
deriving DecidableEq, Repr

/-- A parsed data-stream envelope (`StreamEnvelope<T>`).  `sequence` is a
JS number used only with integral values; we embed it as `Int`.  `payload`
is optional exactly as in the source (`payload?: T`). -/
structure StreamEnvelope (T : Type) where
  message_id : String
  sequence : Int
  phase : StreamPhase
  payload : Option T
deriving DecidableEq, Repr

/-- A parsed control envelope (`ControlEnvelope`).  The source's type
annotation narrows `control_type` to the literal `'server_draining'`, but the
runtime value is whatever arrived on the wire, so we embed it as `String`. -/
structure ControlEnvelope where
  message_id : String
  control_type : String
deriving DecidableEq, Repr

/-- A delivered `MessageEvent` on the `stream` topic: the server-assigned
`lastEventId` plus the outcome of `JSON.parse(event.data)` (`none` models the
parse throwing). -/
structure StreamMessageEvent (T : Type) where
  lastEventId : String
  data : Option (StreamEnvelope T)
deriving DecidableEq, Repr

/-- A delivered `MessageEvent` on the `control` topic, with the outcome of
`JSON.parse(event.data)`. -/
structure ControlMessageEvent where
  lastEventId : String
  data : Option ControlEnvelope
deriving DecidableEq, Repr

/-- The connection URL produced by `buildUrl`: the endpoint returned by
negotiation together with the query parameters the source sets on it. -/
structure BuiltUrl where
  endpoint : String
  token : String
  channel_id : String
  last_event_id : Option String
deriving DecidableEq, Repr

/-- The mutable instance fields of `ConduitClient`.  `eventSource` holds the
attached connection (with the URL it was opened on) or `none`; `undefined`
fields of the source are `none`.  The JS `Set` `seenIds` is embedded as its
list of elements in insertion order, kept duplicate-free by `setAdd`. -/
structure ClientState where
  eventSource : Option BuiltUrl
  connecting : Bool
  lastEventId : Option String
  lastSeq : Option Int
  seenIds : List String
  tokenExpiresAt : Option Int
  currentChannelId : Option String
deriving DecidableEq, Repr

/-- Field initializers of a freshly constructed `ConduitClient`. -/
def initialState : ClientState :=
  { eventSource := none
    connecting := false
    lastEventId := none
    lastSeq := none
    seenIds := []
    tokenExpiresAt := none
    currentChannelId := none }

/-- `Set.prototype.has` on the embedded seen-id set. -/
def setHas (s : List String) (x : String) : Bool :=
  s.contains x

/-- `Set.prototype.add`: a JS `Set` ignores an element already present and
appends a new one in insertion order. -/
def setAdd (s : List String) (x : String) : List String :=
  if s.contains x then s else s ++ [x]

/-- `Set.prototype.size`. -/
def setSize (s : List String) : Nat :=
  s.length

/-- One observable callback invocation on the configuration's handler set.
`onConnect` and `onReconnect` exist in the released client (v1.0.0 renamed
`onOpen`, see the changelog); `onOpen` is the name in the snapshot under
`src/`.  Error conditions carry the message string the source constructs. -/
inductive CallbackEvent (T : Type) where
  | onMessage (payload : T)
  | onConnect
  | onReconnect
  | onOpen
  | onClose
  | onError (message : String)
deriving DecidableEq, Repr

/-- `disconnect()`: when a connection is held, release the handle (handler
removal and `close()` act on the released external object) and fire
`onClose`; otherwise do nothing. -/
def disconnect {T : Type} (s : ClientState) : ClientState × List (CallbackEvent T) :=
  match s.eventSource with
  | some _ => ({ s with eventSource := none }, [CallbackEvent.onClose])
  | none => (s, [])

/-- The body of `handleStream` after a successful `JSON.parse`: end-of-stream
first, then duplicate suppression with the capacity amnesty, then the
ordering check, then phase dispatch. -/
def handleStreamParsed {T : Type} (s : ClientState) (env : StreamEnvelope T) :
    ClientState × List (CallbackEvent T) :=
  if env.phase = StreamPhase.PHASE_END then
    disconnect s
  else if setHas s.seenIds env.message_id then
    (s, [])
  else
    let seen0 := if setSize s.seenIds > MAX_SEEN_TRACKING then [] else s.seenIds
    let s1 := { s with seenIds := setAdd seen0 env.message_id }
    if (match s1.lastSeq with
        | some n => decide (env.sequence ≤ n)
        | none => false) then
      (s1, [])
    else
      let s2 := { s1 with lastSeq := some env.sequence }
      (s2,
        (if env.phase = StreamPhase.PHASE_DELTA then
          match env.payload with
          | some p => [CallbackEvent.onMessage p]
          | none => []
         else [])
        ++
        (if env.phase = StreamPhase.PHASE_ERROR then
          [CallbackEvent.onError "Stream error"]
         else []))

/-- `handleStream`: record the event id into `lastEventId` first, then parse;
a parse failure fires the parse-failure `onError` and discards the event. -/
def handleStream {T : Type} (s : ClientState) (event : StreamMessageEvent T) :
    ClientState × List (CallbackEvent T) :=
  let s1 := { s with lastEventId := some event.lastEventId }
  match event.data with
  | none => (s1, [CallbackEvent.onError "Failed to parse"])
  | some env => handleStreamParsed s1 env

/-- `handleControl`: record the event id first, then parse; a recognized
`server_draining` notice disconnects and issues `reconnect()` (the returned
flag records that the asynchronous reconnect call was made); any other
control type is ignored. -/
def handleControl {T : Type} (s : ClientState) (event : ControlMessageEvent) :
    ClientState × List (CallbackEvent T) × Bool :=
  let s1 := { s with lastEventId := some event.lastEventId }
  match event.data with
  | none => (s1, [CallbackEvent.onError "Failed to parse"], false)
  | some env =>
    if env.control_type = "server_draining" then
      let r := disconnect (T := T) s1
      (r.1, r.2, true)
    else
      (s1, [], false)

/-- Deliver a list of `stream`-topic events to `handleStream` in order,
threading the state and concatenating the callback traces. -/
def processStream {T : Type} (s : ClientState) (evs : List (StreamMessageEvent T)) :
    ClientState × List (CallbackEvent T) :=
  match evs with
  | [] => (s, [])
  | ev :: rest =>
    let r1 := handleStream s ev
    let r2 := processStream r1.1 rest
    (r2.1, r1.2 ++ r2.2)

/-- The payloads of the `onMessage` invocations in a callback trace. -/
def messagesOf {T : Type} (tr : List (CallbackEvent T)) : List T :=
  tr.filterMap (fun c =>
    match c with
    | CallbackEvent.onMessage p => some p
    | _ => none)

/-- The payloads the spec expects `onMessage` to receive: those of the
DELTA-phase envelopes that carry a payload, in order. -/
def deltaPayloads {T : Type} (envs : List (StreamEnvelope T)) : List T :=
  envs.filterMap (fun env =>
    if env.phase = StreamPhase.PHASE_DELTA then env.payload else none)

/-! ## Negotiation (`startStream`) and its validation

`fetch` returns an arbitrary JSON document; the validation in `startStream`
is the JavaScript truthiness test `!data.conduit?.token || ...`, so the
embedding keeps the runtime value of each field, not its declared type. -/

/-- A primitive JSON value as it can appear in a negotiation-response field. -/
inductive JVal where
  | jstr (s : String)
  | jnum (n : Int)
  | jbool (b : Bool)
  | jnull
deriving DecidableEq, Repr

/-- JavaScript truthiness of a field value. -/
def truthy : JVal → Bool
  | JVal.jstr s => !(s = "")
  | JVal.jnum n => !(n = 0)
  | JVal.jbool b => b
  | JVal.jnull => false

/-- Truthiness of an optional-chained field access (`data.conduit?.token`):
an absent field is `undefined`, which is falsy. -/
def fieldTruthy : Option JVal → Bool
  | some v => truthy v
  | none => false

/-- Whether a field value is a string (the spec's "non-string" condition). -/
def fieldIsString : Option JVal → Bool
  | some (JVal.jstr _) => true
  | _ => false

/-- The `conduit` object of a negotiation response, fields as they arrived. -/
structure ConduitObject where
  token : Option JVal
  channel_id : Option JVal
  url : Option JVal
deriving DecidableEq, Repr

/-- Outcome of the `fetch` to the negotiation endpoint: `response.ok` plus
the parsed JSON body's `conduit` member (absent when the body has none). -/
structure FetchResponse where
  ok : Bool
  conduit : Option ConduitObject
deriving DecidableEq, Repr

/-- The two errors `startStream` can throw, named as the spec's taxonomy
names them; the source's messages are `'Failed to start stream ...'` and
`'Invalid response from startStream endpoint'`. -/
inductive StartStreamError where
  | NegotiationFailed
  | InvalidNegotiationResponse
deriving DecidableEq, Repr

/-- `startStream` after the `fetch` resolved: throw on non-ok transport
status, then throw `InvalidNegotiationResponse` when
`!data.conduit?.token || !data.conduit?.channel_id || !data.conduit?.url`,
else return the body (the source's `data as StartStreamResponse` cast). -/
def startStream (resp : FetchResponse) : Except StartStreamError ConduitObject :=
  if !resp.ok then
    Except.error StartStreamError.NegotiationFailed
  else
    match resp.conduit with
    | none => Except.error StartStreamError.InvalidNegotiationResponse
    | some c =>
      if !fieldTruthy c.token || !fieldTruthy c.channel_id || !fieldTruthy c.url then
        Except.error StartStreamError.InvalidNegotiationResponse
      else
        Except.ok c

/-- The validation test of `startStream` as one predicate: the truthiness of
the three optional-chained accesses `data.conduit?.token`,
`data.conduit?.channel_id`, `data.conduit?.url`. -/
def conduitTruthy : Option ConduitObject → Bool
  | some c => fieldTruthy c.token && fieldTruthy c.channel_id && fieldTruthy c.url
  | none => false

/-- The negotiation result as `connect` destructures it, with the declared
string types of `StartStreamResponse` (the shape every field has on the
mainline path). -/
structure StartStreamResponse where
  token : String
  channel_id : String
  url : String
deriving DecidableEq, Repr

/-! ## Token expiry and connect -/

/-- `token.split('.')`, embedded structurally over the character list:
split at every `'.'`, keeping empty segments, as the JS `String.split`
does. -/
def splitDotAux : List Char → List Char → List String
  | acc, [] => [String.mk acc.reverse]
  | acc, c :: rest =>
    if c = '.' then String.mk acc.reverse :: splitDotAux [] rest
    else splitDotAux (c :: acc) rest

def splitDot (s : String) : List String :=
  splitDotAux [] s.data

/-- `getTokenExpiry`: take the middle dot-separated segment of the token and
decode it.  `atobParse` stands for the external `atob` + `JSON.parse`
composite applied to that segment: `none` models either throwing (the catch
returns `undefined`), `some e` models the decoded payload with `e` its
optional `exp` claim.  `payload.exp ? payload.exp * 1000 : undefined` is a
truthiness test, so a zero `exp` is treated as absent. -/
def getTokenExpiry (atobParse : String → Option (Option Int)) (token : String) :
    Option Int :=
  match (splitDot token).get? 1 with
  | none => none
  | some segment =>
    match atobParse segment with
    | none => none
    | some expClaim =>
      match expClaim with
      | some e => if !(e = 0) then some (e * 1000) else none
      | none => none

/-- The guard `this.tokenExpiresAt && Date.now() >= this.tokenExpiresAt`:
truthiness of the stored expiry (zero is falsy) and the clock comparison. -/
def expiryReached (tokenExpiresAt : Option Int) (now : Int) : Bool :=
  match tokenExpiresAt with
  | some e => !(e = 0) && decide (now ≥ e)
  | none => false

/-- `buildUrl(url, token, channelId)`: set the `token` and `channel_id`
query parameters on the negotiated endpoint and, when `this.lastEventId` is
not `undefined`, also `last_event_id`. -/
def buildUrl (s : ClientState) (url token channelId : String) : BuiltUrl :=
  { endpoint := url
    token := token
    channel_id := channelId
    last_event_id := s.lastEventId }

/-- The state effect of `attach(url)`: store the freshly opened connection
handle.  The listener wiring acts on the external `EventSource`; the open
signals it later delivers are modelled by `runSession` below. -/
def attach (s : ClientState) (url : BuiltUrl) : ClientState :=
  { s with eventSource := some url }

/-- `connect()`, with the awaited negotiation outcome supplied as
`negotiation`, the clock as `now`, and the external decoder as `atobParse`.
Returns the final state, the callbacks fired, and the promise outcome
(`Except.error` models the returned promise rejecting).  The guard makes the
call a no-op while connecting or already attached; a negotiation throw
propagates out through the `finally`; an expired credential fires `onError`
and returns without attaching; a channel change resets the resume state
before the URL is built and the connection attached. -/
def connect {T : Type} (s : ClientState)
    (negotiation : Except StartStreamError StartStreamResponse)
    (now : Int) (atobParse : String → Option (Option Int)) :
    ClientState × List (CallbackEvent T) × Except StartStreamError Unit :=
  if s.connecting || s.eventSource.isSome then
    (s, [], Except.ok ())
  else
    match negotiation with
    | Except.error e => ({ s with connecting := false }, [], Except.error e)
    | Except.ok resp =>
      let expiry := getTokenExpiry atobParse resp.token
      let s1 := { s with tokenExpiresAt := expiry }
      if expiryReached expiry now then
        ({ s1 with connecting := false },
          [CallbackEvent.onError "Token expired at reconnect"], Except.ok ())
      else
        let s2 :=
          if !(s1.currentChannelId = some resp.channel_id) then
            { s1 with currentChannelId := some resp.channel_id
                      lastSeq := none
                      seenIds := []
                      lastEventId := none }
          else s1
        let u := buildUrl s2 resp.url resp.token resp.channel_id
        ({ attach s2 u with connecting := false }, [], Except.ok ())

/-! ## Open-signal dispatch of the released client

The changelog's 1.0.0 entry ("Add onReconnect callback, rename onOpen")
postdates both client snapshots in the source tree; the released `attach` is
exercised only by the repository's tests (`connection callbacks` suite) and
described by the README. -/

/-- A signal on one `ConduitClient` instance that the open-dispatch model
observes: an open signal from the underlying connection, or an explicit
`disconnect()` / `connect()` call in between. -/
inductive SessionSignal where
  | openSignal
  | disconnectCall
  | connectCall
deriving DecidableEq, Repr

/-- Modelled from the spec: the open-signal dispatch of `attach` in the
released client, whose source (v1.0.0, adding `onConnect`/`onReconnect`) is
absent from the tree — only its tests and README describe it.  A
"has ever opened" boolean on the session is set on the first open signal and
never cleared; an open signal fires `onConnect` when the flag was unset and
`onReconnect` otherwise; `disconnect()`/`connect()` calls do not touch the
flag, so the distinction persists across disconnect/connect cycles. -/
def runSession {T : Type} : Bool → List SessionSignal → Bool × List (CallbackEvent T)
  | b, [] => (b, [])
  | b, SessionSignal.openSignal :: rest =>
    let c := if b then CallbackEvent.onReconnect else CallbackEvent.onConnect
    let r := runSession (T := T) true rest
    (r.1, c :: r.2)
  | b, SessionSignal.disconnectCall :: rest => runSession b rest
  | b, SessionSignal.connectCall :: rest => runSession b rest

/-! ## Concrete fixtures used by counterexamples and witnesses -/

/-- Message ids used by the cap counterexample: pairwise-distinct strings. -/
def capIdOf (i : Nat) : String := String.mk (List.replicate i 'a')

/-- The i-th envelope of the cap counterexample: a distinct novel message id
with strictly increasing sequence. -/
def capEnvOf (i : Nat) : StreamEnvelope Unit :=
  { message_id := capIdOf i
    sequence := (i : Int)
    phase := StreamPhase.PHASE_START
    payload := none }

/-- 2049 data-stream events with pairwise-distinct novel message ids. -/
def capEvents : List (StreamMessageEvent Unit) :=
  (List.range (MAX_SEEN_TRACKING + 1)).map
    (fun i => { lastEventId := "e", data := some (capEnvOf i) })

/-- A stale DELTA event (sequence 3) for the C9 witness. -/
def staleEv : StreamMessageEvent Nat :=
  { lastEventId := "e"
    data := some { message_id := "m9", sequence := 3,
                   phase := StreamPhase.PHASE_DELTA, payload := some 1 } }

/-- First delivery of id `m7` with a stale sequence, for the C10 witness. -/
def staleFirstEv : StreamMessageEvent Nat :=
  { lastEventId := "e1"
    data := some { message_id := "m7", sequence := 2,
                   phase := StreamPhase.PHASE_DELTA, payload := some 3 } }

/-- Retransmission of id `m7` with a fresh higher sequence, for the C10
witness. -/
def retransmitEv : StreamMessageEvent Nat :=
  { lastEventId := "e2"
    data := some { message_id := "m7", sequence := 9,
                   phase := StreamPhase.PHASE_DELTA, payload := some 4 } }

/-- An END-phase event for the C8 witness. -/
def endEv : StreamMessageEvent Nat :=
  { lastEventId := "evt-9"
    data := some { message_id := "m1", sequence := 1,
                   phase := StreamPhase.PHASE_END, payload := some 5 } }

/-- A client state holding a connection, with `m1` already seen and
`lastSequence` 3, for the C8 witness. -/
def connectedState : ClientState :=
  { initialState with
      eventSource := some { endpoint := "https://h/events", token := "t",
                            channel_id := "c", last_event_id := none }
      seenIds := ["m1"]
      lastSeq := some 3 }

/-- A negotiation response whose `channel_id` is a truthy non-string, for the
C5 counterexample. -/
def conduitNonStringChannel : ConduitObject :=
  { token := some (JVal.jstr "token1")
    channel_id := some (JVal.jnum 42)
    url := some (JVal.jstr "https://conduit.example.com/events") }

def respNonStringChannel : FetchResponse :=
  { ok := true, conduit := some conduitNonStringChannel }

/-- A negotiation response with the token missing, for the C5 witness. -/
def respMissingToken : FetchResponse :=
  { ok := true
    conduit := some { token := none
                      channel_id := some (JVal.jstr "channel1")
                      url := some (JVal.jstr "https://conduit.example.com/events") } }

/-- An expiry decoder for the C6 witness: the middle token segment `pay`
decodes to a payload whose `exp` claim is 5 (so expiry instant 5000). -/
def expDecoder : String → Option (Option Int) :=
  fun seg => if seg = "pay" then some (some 5) else none

/-- A typed negotiation result, for the C4 and C6 witnesses. -/
def okResp : StartStreamResponse :=
  { token := "hdr.pay.sig"
    channel_id := "channel1"
    url := "https://conduit.example.com/events" }

/-- Envelopes for the C1 witness: distinct ids, strictly increasing
sequences, three DELTA payloads around a START event. -/
def orderedEnvs : List (StreamEnvelope Nat) :=
  [ { message_id := "m1", sequence := 1,
      phase := StreamPhase.PHASE_DELTA, payload := some 7 },
    { message_id := "m2", sequence := 2,
      phase := StreamPhase.PHASE_START, payload := none },
    { message_id := "m3", sequence := 3,
      phase := StreamPhase.PHASE_DELTA, payload := some 9 },
    { message_id := "m4", sequence := 5,
      phase := StreamPhase.PHASE_DELTA, payload := some 11 } ]

/-- The C1 witness events delivering `orderedEnvs`. -/
def orderedEvs : List (StreamMessageEvent Nat) :=
  [ { lastEventId := "a", data := some (orderedEnvs.get ⟨0, by decide⟩) },
    { lastEventId := "b", data := some (orderedEnvs.get ⟨1, by decide⟩) },
    { lastEventId := "c", data := some (orderedEnvs.get ⟨2, by decide⟩) },
    { lastEventId := "d", data := some (orderedEnvs.get ⟨3, by decide⟩) } ]

/-! ## Branch characterizations of the message pipeline -/

lemma disconnect_fst {T : Type} (s : ClientState) :
    (disconnect (T := T) s).1 = { s with eventSource := none } := by
  unfold disconnect
  obtain ⟨es, c, lei, ls, si, te, cc⟩ := s
  cases es <;> simp

lemma disconnect_seenIds {T : Type} (s : ClientState) :
    (disconnect (T := T) s).1.seenIds = s.seenIds := by
  rw [disconnect_fst]

lemma disconnect_snd {T : Type} (s : ClientState) :
    (disconnect (T := T) s).2 = [] ∨ (disconnect (T := T) s).2 = [CallbackEvent.onClose] := by
  unfold disconnect
  cases h : s.eventSource <;> simp [h]

lemma handleStream_parse_fail {T : Type} (s : ClientState) (ev : StreamMessageEvent T)
    (h : ev.data = none) :
    handleStream s ev =
      ({ s with lastEventId := some ev.lastEventId }, [CallbackEvent.onError "Failed to parse"]) := by
  unfold handleStream
  rw [h]

lemma handleStream_end {T : Type} (s : ClientState) (ev : StreamMessageEvent T)
    (env : StreamEnvelope T) (hd : ev.data = some env)
    (hp : env.phase = StreamPhase.PHASE_END) :
    handleStream s ev = disconnect { s with lastEventId := some ev.lastEventId } := by
  unfold handleStream handleStreamParsed
  rw [hd]
  simp [hp]

lemma handleStream_dup {T : Type} (s : ClientState) (ev : StreamMessageEvent T)
    (env : StreamEnvelope T) (hd : ev.data = some env)
    (hp : env.phase ≠ StreamPhase.PHASE_END)
    (hseen : setHas s.seenIds env.message_id = true) :
    handleStream s ev = ({ s with lastEventId := some ev.lastEventId }, []) := by
  unfold handleStream handleStreamParsed
  rw [hd]
  have hmem : env.message_id ∈ s.seenIds := by simpa [setHas] using hseen
  simp [hp, setHas, hmem]

lemma handleStream_stale {T : Type} (s : ClientState) (ev : StreamMessageEvent T)
    (env : StreamEnvelope T) (n : Int) (hd : ev.data = some env)
    (hp : env.phase ≠ StreamPhase.PHASE_END)
    (hfresh : setHas s.seenIds env.message_id = false)
    (hn : s.lastSeq = some n) (hle : env.sequence ≤ n) :
    handleStream s ev =
      ({ s with lastEventId := some ev.lastEventId,
                seenIds := setAdd
                  (if setSize s.seenIds > MAX_SEEN_TRACKING then [] else s.seenIds)
                  env.message_id }, []) := by
  unfold handleStream handleStreamParsed
  rw [hd]
  have hmem : env.message_id ∉ s.seenIds := by simpa [setHas] using hfresh
  simp [hp, setHas, hmem, hn, hle]

lemma handleStream_accept {T : Type} (s : ClientState) (ev : StreamMessageEvent T)
    (env : StreamEnvelope T) (hd : ev.data = some env)
    (hp : env.phase ≠ StreamPhase.PHASE_END)
    (hfresh : setHas s.seenIds env.message_id = false)
    (hord : ∀ k, s.lastSeq = some k → k < env.sequence) :
    handleStream s ev =
      ({ s with lastEventId := some ev.lastEventId,
                seenIds := setAdd
                  (if setSize s.seenIds > MAX_SEEN_TRACKING then [] else s.seenIds)
                  env.message_id,
                lastSeq := some env.sequence },
        (if env.phase = StreamPhase.PHASE_DELTA then
          match env.payload with
          | some p => [CallbackEvent.onMessage p]
          | none => []
         else [])
        ++
        (if env.phase = StreamPhase.PHASE_ERROR then
          [CallbackEvent.onError "Stream error"]
         else [])) := by
  unfold handleStream handleStreamParsed
  rw [hd]
  have hcond : (match s.lastSeq with
      | some n => decide (env.sequence ≤ n)
      | none => false) = false := by
    cases hn : s.lastSeq with
    | none => rfl
    | some k =>
      have := hord k hn
      simp [this, not_le.mpr this]
  have hmem : env.message_id ∉ s.seenIds := by simpa [setHas] using hfresh
  simp [hp, setHas, hmem, hcond]

lemma mem_setAdd (s : List String) (x y : String) :
    y ∈ setAdd s x ↔ y ∈ s ∨ y = x := by
  unfold setAdd
  by_cases hx : x ∈ s
  · rw [if_pos (by simpa using hx)]
    exact ⟨fun h => Or.inl h, fun h => h.elim id (fun hy => hy ▸ hx)⟩
  · rw [if_neg (by simpa using hx)]
    simp

lemma setSize_setAdd_le (s : List String) (x : String) :
    setSize (setAdd s x) ≤ setSize s + 1 := by
  unfold setAdd setSize
  by_cases hx : s.contains x = true
  · rw [if_pos hx]
    omega
  · rw [if_neg hx]
    simp

lemma setSize_setAdd_fresh (s : List String) (x : String)
    (h : s.contains x = false) :
    setSize (setAdd s x) = setSize s + 1 := by
  have h' : s.contains x ≠ true := by rw [h]; simp
  unfold setAdd setSize
  rw [if_neg h']
  simp

lemma handleStreamParsed_lastEventId {T : Type} (s : ClientState) (env : StreamEnvelope T) :
    (handleStreamParsed s env).1.lastEventId = s.lastEventId := by
  unfold handleStreamParsed
  split
  · rw [disconnect_fst]
  · split
    · rfl
    · dsimp only
      split <;> rfl

lemma handleStream_lastEventId {T : Type} (s : ClientState) (ev : StreamMessageEvent T) :
    (handleStream s ev).1.lastEventId = some ev.lastEventId := by
  unfold handleStream
  cases h : ev.data with
  | none => rfl
  | some env => exact handleStreamParsed_lastEventId _ env

/-- C7.  For every inbound event on either topic, the handler records the
event's server-assigned identifier into `resumeToken` (`lastEventId`) before
anything else, so the recording survives a parse failure and the discarding
of duplicate, stale or unrecognized events. -/
theorem resumeToken_always_recorded (T : Type) (s s' : ClientState)
    (ev : StreamMessageEvent T) (cv : ControlMessageEvent) :
    (handleStream s ev).1.lastEventId = some ev.lastEventId ∧
    (handleControl (T := T) s' cv).1.lastEventId = some cv.lastEventId := by
  constructor
  · exact handleStream_lastEventId s ev
  · unfold handleControl
    cases h : cv.data with
    | none => rfl
    | some env =>
      by_cases hc : env.control_type = "server_draining"
      · simp [hc, disconnect_fst]
      · simp [hc]

/-- C8.  A successfully parsed data-stream event with phase `PHASE_END`
immediately disconnects: the handler's whole effect is `disconnect()` applied
after recording `lastEventId`; the seen-id set and `lastSequence` are left
untouched (so the event is not subjected to, nor recorded for, the duplicate
and ordering checks), the connection handle is released, and neither
`onMessage` nor `onError` fires for the event. -/
theorem phase_end_always_disconnects (T : Type) (s : ClientState)
    (ev : StreamMessageEvent T) (env : StreamEnvelope T)
    (hd : ev.data = some env) (hp : env.phase = StreamPhase.PHASE_END) :
    handleStream s ev = disconnect { s with lastEventId := some ev.lastEventId } ∧
    (handleStream s ev).1.seenIds = s.seenIds ∧
    (handleStream s ev).1.lastSeq = s.lastSeq ∧
    (handleStream s ev).1.eventSource = none ∧
    ((handleStream s ev).2 = [] ∨ (handleStream s ev).2 = [CallbackEvent.onClose]) := by
  have he := handleStream_end s ev env hd hp
  refine ⟨he, ?_, ?_, ?_, ?_⟩
  · rw [he, disconnect_fst]
  · rw [he, disconnect_fst]
  · rw [he, disconnect_fst]
  · rw [he]
    exact disconnect_snd _

/-- Witness for C8 at a concrete state and event: `m1` is already seen and
its sequence is stale, yet the END event still releases the connection. -/
theorem phase_end_always_disconnects_witness :
    (endEv.data = some { message_id := "m1", sequence := 1,
                         phase := StreamPhase.PHASE_END, payload := some 5 }) ∧
    (handleStream connectedState endEv).1.eventSource = none :=
  ⟨rfl, (phase_end_always_disconnects Nat connectedState endEv _ rfl rfl).2.2.2.1⟩

/-! ## C2: first open fires onConnect, every later open fires onReconnect -/

lemma runSession_true_trace {T : Type} (sigs : List SessionSignal) :
    (runSession (T := T) true sigs).2 =
      List.replicate (sigs.count SessionSignal.openSignal) CallbackEvent.onReconnect := by
  induction sigs with
  | nil => rfl
  | cons sig rest ih =>
    cases sig with
    | openSignal =>
      simp [runSession, ih, List.count_cons, List.replicate_succ]
    | disconnectCall =>
      simp [runSession, ih, List.count_cons]
    | connectCall =>
      simp [runSession, ih, List.count_cons]

/-- C2 (spec-modelled, see `runSession`).  On one `ConduitClient` instance,
the open-signal callbacks are exactly: `onConnect` for the first open signal
ever received, `onReconnect` for every subsequent one — whatever
`disconnect()`/`connect()` calls happen in between — so `onConnect` fires at
most once per instance. -/
theorem onConnect_once_then_onReconnect (T : Type) (sigs : List SessionSignal) :
    (runSession (T := T) false sigs).2 =
      (match sigs.count SessionSignal.openSignal with
        | 0 => []
        | Nat.succ k => CallbackEvent.onConnect :: List.replicate k CallbackEvent.onReconnect) := by
  induction sigs with
  | nil => rfl
  | cons sig rest ih =>
    cases sig with
    | openSignal =>
      simp [runSession, runSession_true_trace, List.count_cons]
    | disconnectCall =>
      simpa [runSession, List.count_cons] using ih
    | connectCall =>
      simpa [runSession, List.count_cons] using ih

/-! ## C3: the seen-id set can exceed the 2048 cap by one entry -/

lemma handleStream_nondup_seenIds {T : Type} (s : ClientState)
    (ev : StreamMessageEvent T) (env : StreamEnvelope T)
    (hd : ev.data = some env) (hp : env.phase ≠ StreamPhase.PHASE_END)
    (hfresh : setHas s.seenIds env.message_id = false) :
    (handleStream s ev).1.seenIds =
      setAdd (if setSize s.seenIds > MAX_SEEN_TRACKING then [] else s.seenIds)
        env.message_id := by
  unfold handleStream handleStreamParsed
  rw [hd]
  have hmem : env.message_id ∉ s.seenIds := by simpa [setHas] using hfresh
  simp only [setHas]
  rw [if_neg hp]
  rw [if_neg (by simpa using hmem)]
  split <;> rfl

lemma handleStream_seenIds_size_le {T : Type} (s : ClientState)
    (ev : StreamMessageEvent T)
    (h : setSize s.seenIds ≤ MAX_SEEN_TRACKING + 1) :
    setSize (handleStream s ev).1.seenIds ≤ MAX_SEEN_TRACKING + 1 := by
  cases hd : ev.data with
  | none =>
    rw [handleStream_parse_fail s ev hd]
    simpa using h
  | some env =>
    by_cases hp : env.phase = StreamPhase.PHASE_END
    · rw [handleStream_end s ev env hd hp, disconnect_fst]
      simpa using h
    · by_cases hseen : setHas s.seenIds env.message_id = true
      · rw [handleStream_dup s ev env hd hp hseen]
        simpa using h
      · replace hseen : setHas s.seenIds env.message_id = false := by
          simpa using hseen
        rw [handleStream_nondup_seenIds s ev env hd hp hseen]
        have hseen0 : setSize
            (if setSize s.seenIds > MAX_SEEN_TRACKING then [] else s.seenIds) ≤
              MAX_SEEN_TRACKING := by
          split
          · simp [setSize]
          · omega
        have hadd := setSize_setAdd_le
          (if setSize s.seenIds > MAX_SEEN_TRACKING then [] else s.seenIds)
          env.message_id
        omega

/-- C3 as amended.  Starting from a fresh client, after any sequence of
data-stream events the seen-id set holds at most `MAX_SEEN_TRACKING + 1 =
2049` entries: the capacity check clears the set before the insertion and
only once its size already exceeds 2048, so the set can overshoot the cap by
exactly one entry. -/
theorem seenIds_size_bounded (T : Type) (evs : List (StreamMessageEvent T)) :
    setSize ((processStream initialState evs).1.seenIds) ≤ MAX_SEEN_TRACKING + 1 := by
  suffices h : ∀ (evs : List (StreamMessageEvent T)) (s : ClientState),
      setSize s.seenIds ≤ MAX_SEEN_TRACKING + 1 →
      setSize ((processStream s evs).1.seenIds) ≤ MAX_SEEN_TRACKING + 1 by
    exact h evs initialState (by simp [initialState, setSize])
  intro evs
  induction evs with
  | nil => intro s hs; exact hs
  | cons ev rest ih =>
    intro s hs
    exact ih _ (handleStream_seenIds_size_le s ev hs)

lemma processStream_growth {T : Type} :
    ∀ (evs : List (StreamMessageEvent T)) (envs : List (StreamEnvelope T)) (s : ClientState),
      evs.map StreamMessageEvent.data = envs.map some →
      List.Pairwise (fun a b => a.message_id ≠ b.message_id) envs →
      (∀ env ∈ envs, s.seenIds.contains env.message_id = false) →
      (∀ env ∈ envs, env.phase ≠ StreamPhase.PHASE_END) →
      setSize s.seenIds + envs.length ≤ MAX_SEEN_TRACKING + 1 →
      setSize ((processStream s evs).1.seenIds) = setSize s.seenIds + envs.length := by
  intro evs
  induction evs with
  | nil =>
    intro envs s hmap _ _ _ _
    have henvs : envs = [] := by
      cases envs with
      | nil => rfl
      | cons a l => simp at hmap
    subst henvs
    simp [processStream]
  | cons ev rest ih =>
    intro envs s hmap hpw hfresh hnoend hsize
    cases envs with
    | nil => simp at hmap
    | cons env erest =>
      simp only [List.map_cons, List.cons.injEq] at hmap
      obtain ⟨hd, hmap'⟩ := hmap
      have hp : env.phase ≠ StreamPhase.PHASE_END := hnoend env (by simp)
      have hfr : setHas s.seenIds env.message_id = false := hfresh env (by simp)
      have hlen : erest.length + 1 = (env :: erest).length := by simp
      have hle : ¬ (setSize s.seenIds > MAX_SEEN_TRACKING) := by
        simp only [List.length_cons] at hsize
        omega
      have hseen := handleStream_nondup_seenIds s ev env hd hp hfr
      rw [if_neg hle] at hseen
      have hsz : setSize (handleStream s ev).1.seenIds = setSize s.seenIds + 1 := by
        rw [hseen]
        exact setSize_setAdd_fresh _ _ hfr
      have hstep : (processStream s (ev :: rest)).1 =
          (processStream (handleStream s ev).1 rest).1 := rfl
      rw [hstep]
      have hfresh' : ∀ e ∈ erest,
          (handleStream s ev).1.seenIds.contains e.message_id = false := by
        intro e he
        have h1 : e.message_id ∉ s.seenIds := by
          have := hfresh e (by simp [he])
          simpa using this
        have h2 : env.message_id ≠ e.message_id :=
          (List.pairwise_cons.mp hpw).1 e he
        have : e.message_id ∉ (handleStream s ev).1.seenIds := by
          rw [hseen]
          rw [mem_setAdd]
          rintro (h | h)
          · exact h1 h
          · exact h2 h.symm
        simpa using this
      have hrec := ih erest (handleStream s ev).1 hmap'
        (List.pairwise_cons.mp hpw).2 hfresh'
        (fun e he => hnoend e (by simp [he]))
        (by simp only [List.length_cons] at hsize; omega)
      rw [hrec, hsz]
      simp only [List.length_cons]
      omega

lemma capIdOf_injective : Function.Injective capIdOf := by
  intro i j h
  have := congrArg (fun s => s.data.length) h
  simpa [capIdOf] using this

/-- Counterexample to C3 as stated: delivering 2049 events with distinct
novel message ids to a fresh client leaves the seen-id set holding 2049
entries, strictly more than the 2048-entry cap, because the capacity check
runs before the insertion. -/
theorem seenIds_exceeds_cap :
    setSize ((processStream initialState capEvents).1.seenIds) =
      MAX_SEEN_TRACKING + 1 ∧
    MAX_SEEN_TRACKING < MAX_SEEN_TRACKING + 1 := by
  constructor
  · have hmap : capEvents.map StreamMessageEvent.data =
        ((List.range (MAX_SEEN_TRACKING + 1)).map capEnvOf).map some := by
      simp [capEvents, List.map_map]
    have hpw : List.Pairwise (fun a b => a.message_id ≠ b.message_id)
        ((List.range (MAX_SEEN_TRACKING + 1)).map capEnvOf) := by
      rw [List.pairwise_map]
      refine (List.pairwise_lt_range _).imp ?_
      intro i j hij
      simp only [capEnvOf]
      intro hcontra
      exact absurd (capIdOf_injective hcontra) (Nat.ne_of_lt hij)
    have h := processStream_growth capEvents
      ((List.range (MAX_SEEN_TRACKING + 1)).map capEnvOf) initialState
      hmap hpw
      (by intro env _; simp [initialState])
      (by
        intro env henv
        simp only [List.mem_map] at henv
        obtain ⟨i, _, hi⟩ := henv
        rw [← hi]
        simp [capEnvOf])
      (by simp [initialState, setSize])
    rw [h]
    simp [initialState, setSize]
  · exact Nat.lt_succ_self _

/-! ## C9: stale sequences are silently discarded; lastSeq only increases -/

/-- C9.  A successfully parsed non-END data-stream event whose sequence is at
most the current `lastSequence` is discarded with no callback at all and
leaves `lastSequence` unchanged, whether or not its `message_id` is novel;
and in general one `handleStream` step either leaves `lastSequence` where it
was or moves it strictly upward, so `lastSequence` is strictly increasing
over accepted messages. -/
theorem stale_sequence_discarded (T : Type) (s : ClientState)
    (ev : StreamMessageEvent T) (env : StreamEnvelope T) (n : Int)
    (hd : ev.data = some env) (hp : env.phase ≠ StreamPhase.PHASE_END)
    (hn : s.lastSeq = some n) (hle : env.sequence ≤ n) :
    (handleStream s ev).2 = [] ∧
    (handleStream s ev).1.lastSeq = some n ∧
    (∀ (s' : ClientState) (ev' : StreamMessageEvent T) (k : Int),
      s'.lastSeq = some k →
      (handleStream s' ev').1.lastSeq = some k ∨
      ∃ m, (handleStream s' ev').1.lastSeq = some m ∧ k < m) := by
  refine ⟨?_, ?_, ?_⟩
  · by_cases hseen : setHas s.seenIds env.message_id = true
    · rw [handleStream_dup s ev env hd hp hseen]
    · replace hseen : setHas s.seenIds env.message_id = false := by simpa using hseen
      rw [handleStream_stale s ev env n hd hp hseen hn hle]
  · by_cases hseen : setHas s.seenIds env.message_id = true
    · rw [handleStream_dup s ev env hd hp hseen]
      simpa using hn
    · replace hseen : setHas s.seenIds env.message_id = false := by simpa using hseen
      rw [handleStream_stale s ev env n hd hp hseen hn hle]
      simpa using hn
  · intro s' ev' k hk
    cases hd' : ev'.data with
    | none =>
      left
      rw [handleStream_parse_fail s' ev' hd']
      simpa using hk
    | some env' =>
      by_cases hp' : env'.phase = StreamPhase.PHASE_END
      · left
        rw [handleStream_end s' ev' env' hd' hp', disconnect_fst]
        simpa using hk
      · by_cases hseen' : setHas s'.seenIds env'.message_id = true
        · left
          rw [handleStream_dup s' ev' env' hd' hp' hseen']
          simpa using hk
        · replace hseen' : setHas s'.seenIds env'.message_id = false := by
            simpa using hseen'
          by_cases hord : env'.sequence ≤ k
          · left
            rw [handleStream_stale s' ev' env' k hd' hp' hseen' hk hord]
            simpa using hk
          · right
            refine ⟨env'.sequence, ?_, by omega⟩
            rw [handleStream_accept s' ev' env' hd' hp' hseen'
              (fun k' hk' => by rw [hk] at hk'; cases hk'; omega)]

/-- Witness for C9 at a concrete state and event: sequence 3 arrives while
`lastSequence` is 5 and is discarded without any callback. -/
theorem stale_sequence_discarded_witness :
    (staleEv.data = some { message_id := "m9", sequence := 3,
                           phase := StreamPhase.PHASE_DELTA, payload := some 1 }) ∧
    ((3 : Int) ≤ 5) ∧
    (handleStream { initialState with lastSeq := some 5 } staleEv).2 =
      ([] : List (CallbackEvent Nat)) :=
  ⟨rfl, by decide,
    (stale_sequence_discarded Nat { initialState with lastSeq := some 5 }
      staleEv _ 5 rfl (by decide) rfl (by decide)).1⟩

/-! ## C10: an id recorded for a stale event suppresses its retransmission -/

/-- C10.  When a data-stream event with a novel `message_id` is discarded by
the ordering check, its id has already been recorded into the seen-id set;
so a later redelivery of the same `message_id` — even with a fresh higher
sequence number — produces no `onMessage` invocation. -/
theorem discarded_novel_id_still_suppressed (T : Type) (s : ClientState)
    (ev1 ev2 : StreamMessageEvent T) (env1 env2 : StreamEnvelope T) (n : Int)
    (hd1 : ev1.data = some env1) (hp1 : env1.phase ≠ StreamPhase.PHASE_END)
    (hfresh : setHas s.seenIds env1.message_id = false)
    (hn : s.lastSeq = some n) (hle : env1.sequence ≤ n)
    (hd2 : ev2.data = some env2) (hid : env2.message_id = env1.message_id) :
    setHas (handleStream s ev1).1.seenIds env1.message_id = true ∧
    (handleStream s ev1).2 = [] ∧
    messagesOf ((handleStream (handleStream s ev1).1 ev2).2) = [] := by
  have hseen1 : setHas (handleStream s ev1).1.seenIds env1.message_id = true := by
    rw [handleStream_nondup_seenIds s ev1 env1 hd1 hp1 hfresh]
    have : env1.message_id ∈ setAdd
        (if setSize s.seenIds > MAX_SEEN_TRACKING then [] else s.seenIds)
        env1.message_id := by
      rw [mem_setAdd]
      exact Or.inr rfl
    simpa [setHas] using this
  refine ⟨hseen1, ?_, ?_⟩
  · rw [handleStream_stale s ev1 env1 n hd1 hp1 hfresh hn hle]
  · by_cases hp2 : env2.phase = StreamPhase.PHASE_END
    · rw [handleStream_end _ ev2 env2 hd2 hp2]
      rcases disconnect_snd (T := T)
        ({ (handleStream s ev1).1 with lastEventId := some ev2.lastEventId }) with h | h
      · rw [h]; rfl
      · rw [h]; rfl
    · rw [handleStream_dup _ ev2 env2 hd2 hp2 (by rw [hid]; exact hseen1)]
      rfl

/-- Witness for C10: id `m7` first arrives with stale sequence 2 (while
`lastSequence` is 5), then is retransmitted with fresh sequence 9; the
retransmission produces no `onMessage`. -/
theorem discarded_novel_id_still_suppressed_witness :
    ((2 : Int) ≤ 5) ∧
    messagesOf ((handleStream
      (handleStream { initialState with lastSeq := some 5 } staleFirstEv).1
      retransmitEv).2) = [] :=
  ⟨by decide,
    (discarded_novel_id_still_suppressed Nat { initialState with lastSeq := some 5 }
      staleFirstEv retransmitEv _ _ 5 rfl (by decide) rfl rfl (by decide)
      rfl rfl).2.2⟩

/-! ## C5: what the negotiation validation actually rejects -/

/-- Counterexample to C5 as stated: a transport-success response whose
`channel_id` is the number 42 — present but not a string — passes the
truthiness validation, so `startStream` returns it instead of throwing
`InvalidNegotiationResponse`. -/
theorem nonstring_field_passes_validation :
    respNonStringChannel.ok = true ∧
    fieldIsString conduitNonStringChannel.channel_id = false ∧
    startStream respNonStringChannel = Except.ok conduitNonStringChannel := by
  exact ⟨rfl, rfl, rfl⟩

/-- C5 as amended.  On a transport-success response, `startStream` throws
`InvalidNegotiationResponse` exactly when one of the three `conduit` fields
is missing or falsy (absent `conduit` object, absent field, empty string,
zero, `false`, `null`); a truthy non-string value passes the validation.
Whenever negotiation throws, `connect()` rejects with that same error and no
connection is attached. -/
theorem invalid_negotiation_rejects_without_attach :
    (∀ resp : FetchResponse, resp.ok = true →
      (startStream resp = Except.error StartStreamError.InvalidNegotiationResponse ↔
        conduitTruthy resp.conduit = false)) ∧
    (∀ (T : Type) (s : ClientState) (e : StartStreamError) (now : Int)
        (p : String → Option (Option Int)),
      s.connecting = false → s.eventSource = none →
      connect (T := T) s (Except.error e) now p =
        ({ s with connecting := false }, [], Except.error e) ∧
      (connect (T := T) s (Except.error e) now p).1.eventSource = none) := by
  constructor
  · intro resp hok
    unfold startStream conduitTruthy
    rw [hok]
    simp only [Bool.not_true, Bool.false_eq_true, if_false]
    cases hc : resp.conduit with
    | none => simp
    | some c =>
      by_cases h1 : fieldTruthy c.token = true
      · by_cases h2 : fieldTruthy c.channel_id = true
        · by_cases h3 : fieldTruthy c.url = true
          · simp [h1, h2, h3]
          · replace h3 : fieldTruthy c.url = false := by simpa using h3
            simp [h1, h2, h3]
        · replace h2 : fieldTruthy c.channel_id = false := by simpa using h2
          simp [h1, h2]
      · replace h1 : fieldTruthy c.token = false := by simpa using h1
        simp [h1]
  · intro T s e now p hconn hes
    have hguard : (s.connecting || s.eventSource.isSome) = false := by
      rw [hconn, hes]
      rfl
    constructor
    · unfold connect
      rw [hguard]
      rfl
    · unfold connect
      rw [hguard]
      simpa using hes

/-- Witness for C5's amended theorem: a response missing `token` is rejected
as `InvalidNegotiationResponse`, and a `connect()` whose negotiation threw
that error rejects and leaves the connection handle absent. -/
theorem invalid_negotiation_rejects_without_attach_witness :
    respMissingToken.ok = true ∧
    (startStream respMissingToken =
      Except.error StartStreamError.InvalidNegotiationResponse) ∧
    (connect (T := Unit) initialState
        (Except.error StartStreamError.InvalidNegotiationResponse) 0
        (fun _ => none)).1.eventSource = none :=
  ⟨rfl,
    ((invalid_negotiation_rejects_without_attach.1 respMissingToken rfl).mpr
      (by decide)),
    (invalid_negotiation_rejects_without_attach.2 Unit initialState
      StartStreamError.InvalidNegotiationResponse 0 (fun _ => none) rfl rfl).2⟩

/-! ## C6: connect attaches iff the decoded expiry is absent or not reached -/

lemma getTokenExpiry_ne_some_zero (p : String → Option (Option Int)) (tok : String) :
    getTokenExpiry p tok ≠ some 0 := by
  unfold getTokenExpiry
  cases h1 : (splitDot tok).get? 1 with
  | none => simp
  | some seg =>
    cases h2 : p seg with
    | none => simp [h2]
    | some claim =>
      cases claim with
      | none => simp [h2]
      | some e =>
        by_cases he : e = 0
        · simp [h2, he]
        · have hmul : e * 1000 ≠ 0 := by
            intro h0
            rcases mul_eq_zero.mp h0 with h | h
            · exact he h
            · omega
          simp [h2, he, hmul]

lemma connect_guard_false (s : ClientState)
    (hconn : s.connecting = false) (hes : s.eventSource = none) :
    (s.connecting || s.eventSource.isSome) = false := by
  rw [hconn, hes]
  rfl

lemma connect_ok_expired_eq (T : Type) (s : ClientState)
    (resp : StartStreamResponse) (now : Int) (p : String → Option (Option Int))
    (hconn : s.connecting = false) (hes : s.eventSource = none)
    (hr : expiryReached (getTokenExpiry p resp.token) now = true) :
    connect (T := T) s (Except.ok resp) now p =
      ({ s with tokenExpiresAt := getTokenExpiry p resp.token, connecting := false },
        [CallbackEvent.onError "Token expired at reconnect"], Except.ok ()) := by
  have hguard := connect_guard_false s hconn hes
  unfold connect
  rw [hguard]
  simp only [Bool.false_eq_true, if_false]
  rw [hr]
  rfl

lemma connect_ok_live_isSome (T : Type) (s : ClientState)
    (resp : StartStreamResponse) (now : Int) (p : String → Option (Option Int))
    (hconn : s.connecting = false) (hes : s.eventSource = none)
    (hr : expiryReached (getTokenExpiry p resp.token) now = false) :
    (connect (T := T) s (Except.ok resp) now p).1.eventSource.isSome = true := by
  have hguard := connect_guard_false s hconn hes
  unfold connect
  rw [hguard]
  simp only [Bool.false_eq_true, if_false]
  rw [hr]
  simp only [Bool.false_eq_true, if_false]
  split <;> rfl

/-- C6.  From an idle state, `connect()` with a successful negotiation
attaches a connection if and only if the credential's decoded expiry is
absent or strictly later than the current instant; when the decoded expiry
has been reached, `connect()` fires the `CredentialExpired` `onError`
(message `"Token expired at reconnect"`), resolves normally, and attaches
nothing; and a token with no second dot-separated segment (one from which no
payload can be decoded) always decodes to no expiry, hence is treated as
non-expiring. -/
theorem connect_attaches_iff_not_expired (T : Type) (s : ClientState)
    (resp : StartStreamResponse) (now : Int)
    (p : String → Option (Option Int))
    (hconn : s.connecting = false) (hes : s.eventSource = none) :
    ((connect (T := T) s (Except.ok resp) now p).1.eventSource.isSome = true ↔
      (getTokenExpiry p resp.token = none ∨
        ∃ e, getTokenExpiry p resp.token = some e ∧ now < e)) ∧
    (∀ e, getTokenExpiry p resp.token = some e → now ≥ e →
      (connect (T := T) s (Except.ok resp) now p).1.eventSource = none ∧
      (connect (T := T) s (Except.ok resp) now p).2.1 =
        [CallbackEvent.onError "Token expired at reconnect"] ∧
      (connect (T := T) s (Except.ok resp) now p).2.2 = Except.ok ()) ∧
    (∀ tok : String, (splitDot tok).get? 1 = none →
      getTokenExpiry p tok = none) := by
  refine ⟨?_, ?_, ?_⟩
  · cases hE : getTokenExpiry p resp.token with
    | none =>
      have hr : expiryReached (getTokenExpiry p resp.token) now = false := by
        rw [hE]
        rfl
      exact iff_of_true (connect_ok_live_isSome T s resp now p hconn hes hr)
        (Or.inl rfl)
    | some e =>
      have hne : e ≠ 0 := by
        intro h0
        exact getTokenExpiry_ne_some_zero p resp.token (h0 ▸ hE)
      by_cases hnow : now ≥ e
      · have hr : expiryReached (getTokenExpiry p resp.token) now = true := by
          rw [hE]
          simp [expiryReached, hne, hnow]
        refine iff_of_false ?_ ?_
        · rw [connect_ok_expired_eq T s resp now p hconn hes hr]
          simp [hes]
        · rintro (h | ⟨e', he', hlt⟩)
          · cases h
          · cases he'
            omega
      · have hr : expiryReached (getTokenExpiry p resp.token) now = false := by
          rw [hE]
          simp only [expiryReached]
          simp [hne]
          omega
        exact iff_of_true (connect_ok_live_isSome T s resp now p hconn hes hr)
          (Or.inr ⟨e, rfl, by omega⟩)
  · intro e hE hnow
    have hne : e ≠ 0 := by
      intro h0
      exact getTokenExpiry_ne_some_zero p resp.token (h0 ▸ hE)
    have hr : expiryReached (getTokenExpiry p resp.token) now = true := by
      rw [hE]
      simp [expiryReached, hne, hnow]
    rw [connect_ok_expired_eq T s resp now p hconn hes hr]
    exact ⟨by simpa using hes, rfl, rfl⟩
  · intro tok htok
    unfold getTokenExpiry
    rw [htok]

/-- Witness for C6: the fixture token decodes to expiry instant 5000; at
time 6000 `connect()` fires the expiry `onError` and attaches nothing, at
time 4000 it attaches. -/
theorem connect_attaches_iff_not_expired_witness :
    initialState.connecting = false ∧
    (connect (T := Unit) initialState (Except.ok okResp) 6000 expDecoder).2.1 =
      [CallbackEvent.onError "Token expired at reconnect"] ∧
    (connect (T := Unit) initialState (Except.ok okResp) 4000 expDecoder).1.eventSource.isSome = true :=
  ⟨rfl,
    ((connect_attaches_iff_not_expired Unit initialState okResp 6000 expDecoder
      rfl rfl).2.1 5000 (by decide) (by decide)).2.1,
    ((connect_attaches_iff_not_expired Unit initialState okResp 4000 expDecoder
      rfl rfl).1.mpr (Or.inr ⟨5000, by decide, by decide⟩))⟩

/-! ## C4: resume state across disconnect/connect, same vs changed channel -/

/-- C4.  After `disconnect()` then `connect()` whose negotiation returns the
same channel as `currentChannel`, the resume token (`lastEventId`), the
`lastSequence` and the seen-id set all survive unchanged and a connection is
attached; when the negotiation returns a different channel, all three are
cleared before the connection is attached. -/
theorem reconnect_resume_state (T : Type) (s : ClientState) (u : BuiltUrl)
    (resp : StartStreamResponse) (now : Int)
    (p : String → Option (Option Int))
    (hconn : s.connecting = false) (hes : s.eventSource = some u)
    (hexp : expiryReached (getTokenExpiry p resp.token) now = false) :
    (s.currentChannelId = some resp.channel_id →
      (connect (T := T) (disconnect (T := T) s).1 (Except.ok resp) now p).1.lastEventId =
          s.lastEventId ∧
      (connect (T := T) (disconnect (T := T) s).1 (Except.ok resp) now p).1.lastSeq =
          s.lastSeq ∧
      (connect (T := T) (disconnect (T := T) s).1 (Except.ok resp) now p).1.seenIds =
          s.seenIds ∧
      (connect (T := T) (disconnect (T := T) s).1 (Except.ok resp) now p).1.eventSource.isSome = true) ∧
    (s.currentChannelId ≠ some resp.channel_id →
      (connect (T := T) (disconnect (T := T) s).1 (Except.ok resp) now p).1.lastEventId = none ∧
      (connect (T := T) (disconnect (T := T) s).1 (Except.ok resp) now p).1.lastSeq = none ∧
      (connect (T := T) (disconnect (T := T) s).1 (Except.ok resp) now p).1.seenIds = [] ∧
      (connect (T := T) (disconnect (T := T) s).1 (Except.ok resp) now p).1.eventSource.isSome = true) := by
  rw [disconnect_fst]
  have hguard : ((({ s with eventSource := none } : ClientState)).connecting ||
      (({ s with eventSource := none } : ClientState)).eventSource.isSome) = false := by
    simp [hconn]
  constructor
  · intro hsame
    unfold connect
    rw [hguard]
    simp only [Bool.false_eq_true, if_false]
    rw [hexp]
    simp only [Bool.false_eq_true, if_false]
    have hch : (!(({ s with eventSource := none } : ClientState).currentChannelId =
        some resp.channel_id) : Bool) = false := by
      simpa using hsame
    rw [hch]
    simp [attach]
  · intro hdiff
    unfold connect
    rw [hguard]
    simp only [Bool.false_eq_true, if_false]
    rw [hexp]
    simp only [Bool.false_eq_true, if_false]
    have hch : (!(({ s with eventSource := none } : ClientState).currentChannelId =
        some resp.channel_id) : Bool) = true := by
      simpa using hdiff
    rw [hch]
    simp [attach]

/-- Witness for C4: a connected client on `channel1` with resume state,
disconnected and reconnected to the same channel, keeps `lastEventId`
`"event-123"`; reconnected to a different channel (`channel1` vs stored
`channel2`), it loses it. -/
theorem reconnect_resume_state_witness :
    (connect (T := Unit)
      (disconnect (T := Unit)
        { initialState with
            eventSource := some { endpoint := "https://h/events", token := "t",
                                  channel_id := "channel1", last_event_id := none }
            lastEventId := some "event-123"
            lastSeq := some 7
            seenIds := ["m1"]
            currentChannelId := some "channel1" }).1
      (Except.ok okResp) 0 (fun _ => none)).1.lastEventId = some "event-123" ∧
    (connect (T := Unit)
      (disconnect (T := Unit)
        { initialState with
            eventSource := some { endpoint := "https://h/events", token := "t",
                                  channel_id := "channel2", last_event_id := none }
            lastEventId := some "event-123"
            lastSeq := some 7
            seenIds := ["m1"]
            currentChannelId := some "channel2" }).1
      (Except.ok okResp) 0 (fun _ => none)).1.lastEventId = none :=
  ⟨((reconnect_resume_state Unit
      { initialState with
          eventSource := some { endpoint := "https://h/events", token := "t",
                                channel_id := "channel1", last_event_id := none }
          lastEventId := some "event-123"
          lastSeq := some 7
          seenIds := ["m1"]
          currentChannelId := some "channel1" }
      _ okResp 0 (fun _ => none) rfl rfl (by decide)).1 rfl).1,
    ((reconnect_resume_state Unit
      { initialState with
          eventSource := some { endpoint := "https://h/events", token := "t",
                                channel_id := "channel2", last_event_id := none }
          lastEventId := some "event-123"
          lastSeq := some 7
          seenIds := ["m1"]
          currentChannelId := some "channel2" }
      _ okResp 0 (fun _ => none) rfl rfl (by decide)).2 (by decide)).1⟩

/-! ## C1: ordered, deduplicated delivery of DELTA payloads -/

lemma messagesOf_append {T : Type} (a b : List (CallbackEvent T)) :
    messagesOf (a ++ b) = messagesOf a ++ messagesOf b := by
  unfold messagesOf
  exact List.filterMap_append _ _ _

lemma processStream_ordered_messages {T : Type} :
    ∀ (evs : List (StreamMessageEvent T)) (envs : List (StreamEnvelope T)) (s : ClientState),
      evs.map StreamMessageEvent.data = envs.map some →
      List.Pairwise (fun a b => a.sequence < b.sequence) envs →
      List.Pairwise (fun a b => a.message_id ≠ b.message_id) envs →
      (∀ env ∈ envs, s.seenIds.contains env.message_id = false) →
      (∀ env ∈ envs, ∀ k, s.lastSeq = some k → k < env.sequence) →
      messagesOf ((processStream s evs).2) = deltaPayloads envs := by
  intro evs
  induction evs with
  | nil =>
    intro envs s hmap _ _ _ _
    have henvs : envs = [] := by
      cases envs with
      | nil => rfl
      | cons a l => simp at hmap
    subst henvs
    rfl
  | cons ev rest ih =>
    intro envs s hmap hseq hids hfresh hord
    cases envs with
    | nil => simp at hmap
    | cons env erest =>
      simp only [List.map_cons, List.cons.injEq] at hmap
      obtain ⟨hd, hmap'⟩ := hmap
      have hstep : (processStream s (ev :: rest)).2 =
          (handleStream s ev).2 ++ (processStream (handleStream s ev).1 rest).2 := rfl
      rw [hstep, messagesOf_append]
      by_cases hp : env.phase = StreamPhase.PHASE_END
      · have he := handleStream_end s ev env hd hp
        have hhead : messagesOf ((handleStream s ev).2) = [] := by
          rw [he]
          rcases disconnect_snd (T := T)
            ({ s with lastEventId := some ev.lastEventId }) with h | h
          · rw [h]; rfl
          · rw [h]; rfl
        have hdelta : deltaPayloads (env :: erest) = deltaPayloads erest := by
          unfold deltaPayloads
          rw [List.filterMap_cons]
          simp [hp]
        rw [hhead, hdelta, List.nil_append]
        refine ih erest (handleStream s ev).1 hmap' hseq.of_cons hids.of_cons ?_ ?_
        · intro e he'
          have hsame : (handleStream s ev).1.seenIds = s.seenIds := by
            rw [he, disconnect_fst]
          rw [hsame]
          exact hfresh e (by simp [he'])
        · intro e he' k hk
          have hls : (handleStream s ev).1.lastSeq = s.lastSeq := by
            rw [he, disconnect_fst]
          rw [hls] at hk
          exact hord e (by simp [he']) k hk
      · have hfr : setHas s.seenIds env.message_id = false := hfresh env (by simp)
        have hacc := handleStream_accept s ev env hd hp hfr
          (fun k hk => hord env (by simp) k hk)
        have hhead : messagesOf ((handleStream s ev).2) =
            (match (if env.phase = StreamPhase.PHASE_DELTA then env.payload else none) with
              | some pl => [pl]
              | none => []) := by
          rw [hacc]
          by_cases hdp : env.phase = StreamPhase.PHASE_DELTA
          · cases hpay : env.payload with
            | none => simp [messagesOf, hdp, hpay]
            | some pl => simp [messagesOf, hdp, hpay]
          · by_cases herr : env.phase = StreamPhase.PHASE_ERROR
            · simp [messagesOf, hdp, herr]
            · simp [messagesOf, hdp, herr]
        have hdelta : deltaPayloads (env :: erest) =
            (match (if env.phase = StreamPhase.PHASE_DELTA then env.payload else none) with
              | some pl => [pl]
              | none => []) ++ deltaPayloads erest := by
          unfold deltaPayloads
          rw [List.filterMap_cons]
          cases hf : (if env.phase = StreamPhase.PHASE_DELTA then env.payload else none) with
          | none => simp
          | some pl => simp
        rw [hhead, hdelta]
        congr 1
        refine ih erest (handleStream s ev).1 hmap' hseq.of_cons hids.of_cons ?_ ?_
        · intro e he'
          have hmem : e.message_id ∉ (handleStream s ev).1.seenIds := by
            rw [hacc]
            show e.message_id ∉ setAdd
              (if setSize s.seenIds > MAX_SEEN_TRACKING then [] else s.seenIds)
              env.message_id
            rw [mem_setAdd]
            rintro (h | h)
            · have hmem_s : e.message_id ∈ s.seenIds := by
                by_cases hclear : setSize s.seenIds > MAX_SEEN_TRACKING
                · rw [if_pos hclear] at h
                  cases h
                · rwa [if_neg hclear] at h
              have hc := hfresh e (by simp [he'])
              simp [hmem_s] at hc
            · exact (List.pairwise_cons.mp hids).1 e he' h.symm
          simpa using hmem
        · intro e he' k hk
          have hls : (handleStream s ev).1.lastSeq = some env.sequence := by
            rw [hacc]
          rw [hls] at hk
          cases hk
          exact (List.pairwise_cons.mp hseq).1 e he'

/-- C1.  Starting from a fresh client, delivering any sequence of
successfully parsed data-stream events whose `sequence` values are strictly
increasing and whose `message_id`s are pairwise distinct produces exactly one
`onMessage` invocation per DELTA-phase event carrying a payload, with that
payload, in arrival order — no payload is dropped, duplicated or
reordered. -/
theorem delta_payloads_delivered_in_order (T : Type)
    (evs : List (StreamMessageEvent T)) (envs : List (StreamEnvelope T))
    (hparse : evs.map StreamMessageEvent.data = envs.map some)
    (hseq : List.Pairwise (fun a b => a.sequence < b.sequence) envs)
    (hids : List.Pairwise (fun a b => a.message_id ≠ b.message_id) envs) :
    messagesOf ((processStream initialState evs).2) = deltaPayloads envs :=
  processStream_ordered_messages evs envs initialState hparse hseq hids
    (fun _ _ => rfl) (fun _ _ k hk => by cases hk)

/-- Witness for C1: three DELTA events (payloads 7, 9, 11) with distinct ids
and increasing sequences, interleaved with a START event, deliver exactly
[7, 9, 11]. -/
theorem delta_payloads_delivered_in_order_witness :
    messagesOf ((processStream initialState orderedEvs).2) = [7, 9, 11] :=
  (delta_payloads_delivered_in_order Nat orderedEvs orderedEnvs
    rfl (by decide) (by decide)).trans (by decide)

end Conduit
